import Mathlib

set_option linter.unusedVariables false

/-! Shallow embedding of the document workflow engine from src/src/App.js:
the ApiService client (uploadDocument, editDocument, convertDocument,
downloadFile) and the App component handlers (handleFileUpload,
handleAIEdit, downloadAsFormat, resetDocument). Network outcomes and DOM
failures are passed in as explicit parameters, and each handler is
instrumented with the observable state at the moment a request is issued,
whether a network call happened, and whether a local save was triggered. -/

/-- A JavaScript error value: its constructor name and its message. -/
structure JsError where
  name : String
  message : String
  deriving DecidableEq

/-- Bool test that the character list pat occurs at the head of s. -/
def charsHavePref : List Char → List Char → Bool
  | [], _ => true
  | _ :: _, [] => false
  | p :: ps, c :: cs => if p = c then charsHavePref ps cs else false

/-- Bool test that the character list pat occurs somewhere inside s. -/
def charsContain (pat : List Char) : List Char → Bool
  | [] => charsHavePref pat []
  | c :: cs => charsHavePref pat (c :: cs) || charsContain pat cs

/-- Embedding of the JavaScript test s.includes(pat), for nonempty pat. -/
def containsSubstring (s pat : String) : Bool :=
  charsContain pat.data s.data

/-- Whitespace test for the characters that trim removes. -/
def isWhitespaceChar (c : Char) : Bool :=
  if c = ' ' then true
  else if c = '\t' then true
  else if c = '\n' then true
  else if c = '\r' then true
  else false

/-- Drops leading whitespace characters from a character list. -/
def dropLeadingWs : List Char → List Char
  | [] => []
  | c :: cs => if isWhitespaceChar c then dropLeadingWs cs else c :: cs

/-- Embedding of the JavaScript call s.trim(): drop leading and trailing
whitespace. -/
def jsTrim (s : String) : String :=
  ⟨dropLeadingWs ((dropLeadingWs s.data.reverse).reverse)⟩

/-- Embedding of the JavaScript expression x || d for a string-valued x:
the empty string is falsy and yields the default. -/
def jsOrS (x d : String) : String :=
  if x = "" then d else x

/-- Embedding of x || d where x is a possibly absent string field: both an
absent field and an empty string are falsy and yield the default. -/
def jsOr (x : Option String) (d : String) : String :=
  match x with
  | none => d
  | some v => if v = "" then d else v

/-- JavaScript truthiness of a possibly absent string field. -/
def truthyStr (x : Option String) : Bool :=
  match x with
  | none => false
  | some v => if v = "" then false else true

/-- An uploaded file handle; the engine observes only its presence. -/
structure File where
  name : String
  deriving DecidableEq

/-- A binary payload; the engine observes only its size. -/
structure Blob where
  size : Nat
  deriving DecidableEq

/-- Optional display metadata attached to a document. -/
structure DocMetadata where
  fileSize : Option Nat
  wordCount : Option Nat
  deriving DecidableEq

/-- The backend-processed document payload of an upload response. -/
structure Document where
  id : Option String
  originalName : Option String
  type : Option String
  language : Option String
  html : Option String
  metadata : Option DocMetadata
  deriving DecidableEq

/-- One entry of the edit history log. -/
structure EditRecord where
  instruction : String
  timestamp : String
  explanation : String
  deriving DecidableEq

/-- The React component state of App: one field per useState hook. -/
structure AppState where
  currentStep : String
  document : Option Document
  htmlContent : String
  isProcessing : Bool
  editInstructions : String
  editHistory : List EditRecord
  previewMode : String
  error : Option String
  language : String
  deriving DecidableEq

/-- The useState initial values of App. -/
def initialState : AppState :=
  { currentStep := "upload", document := none, htmlContent := "",
    isProcessing := false, editInstructions := "", editHistory := [],
    previewMode := "desktop", error := none, language := "en" }

/-- Parsed JSON body of a successful upload response. -/
structure UploadResponse where
  success : Bool
  document : Option Document
  deriving DecidableEq

/-- Parsed JSON body of a successful edit response. -/
structure EditResponse where
  success : Bool
  modifiedHTML : Option String
  explanation : Option String
  error : Option String
  deriving DecidableEq

/-- An HTTP response to the upload fetch. errorField models the JSON parse
of the body on the non-ok path: none means the body is not parseable JSON,
some none means it parses but the error field is absent or null, and
some (some m) means the error field is the string m. result models the JSON
parse of the body on the ok path, none meaning the parse throws. -/
structure UploadHttpResp where
  ok : Bool
  status : Nat
  statusText : String
  errorField : Option (Option String)
  result : Option UploadResponse
  deriving DecidableEq

/-- An HTTP response to the edit fetch; fields as in UploadHttpResp. -/
structure EditHttpResp where
  ok : Bool
  status : Nat
  statusText : String
  errorField : Option (Option String)
  result : Option EditResponse
  deriving DecidableEq

/-- An HTTP response to the convert fetch; on the ok path the body is read
as a binary blob. -/
structure ConvertHttpResp where
  ok : Bool
  status : Nat
  statusText : String
  errorField : Option (Option String)
  blob : Blob
  deriving DecidableEq

/-- Outcome of a fetch call: the promise rejects with a JsError, or it
resolves to an HTTP response. -/
inductive NetOutcome (ρ : Type) where
  | reject (e : JsError)
  | resp (r : ρ)
  deriving DecidableEq

/-- The error-message computation shared by the three operations on a
non-ok response: prefer the parsed error field, fall back to the
operation-specific message, and fall back to the HTTP status line when the
body is not parseable. -/
def httpErrorMessage (fallback : String) (status : Nat) (statusText : String)
    (errorField : Option (Option String)) : String :=
  match errorField with
  | none => "HTTP " ++ toString status ++ ": " ++ statusText
  | some e => jsOr e fallback

/-- The catch wrapper shared by the three operations: a TypeError whose
message mentions fetch is replaced by the connectivity message, every other
error is rethrown unchanged. -/
def wrapTransport {α : Type} (connectMsg : String) (r : Except JsError α) :
    Except JsError α :=
  match r with
  | .ok v => .ok v
  | .error e =>
      if e.name = "TypeError" ∧ containsSubstring e.message "fetch" = true then
        .error ⟨"Error", connectMsg⟩
      else .error e

/-- ApiService.uploadDocument: validate the file handle, issue the fetch,
map a non-ok status to a thrown error, parse the success body, and wrap
transport failures into the connectivity message. -/
def ApiService.uploadDocument (file : Option File)
    (net : NetOutcome UploadHttpResp) : Except JsError UploadResponse :=
  match file with
  | none => .error ⟨"Error", "No file provided"⟩
  | some _ =>
      wrapTransport "Unable to connect to server. Please check if the backend is running."
        (match net with
         | .reject e => .error e
         | .resp r =>
             if r.ok then
               match r.result with
               | some result => .ok result
               | none => .error ⟨"SyntaxError", "Unexpected end of JSON input"⟩
             else
               .error ⟨"Error",
                 httpErrorMessage "Upload failed" r.status r.statusText r.errorField⟩)

/-- ApiService.editDocument: validate instruction and html, issue the
fetch, and handle status, parse and transport failures as for upload. -/
def ApiService.editDocument (instruction html language : String)
    (documentId : Option String) (net : NetOutcome EditHttpResp) :
    Except JsError EditResponse :=
  if instruction = "" ∨ html = "" then
    .error ⟨"Error", "Instruction and HTML content are required"⟩
  else
    wrapTransport "Unable to connect to server for editing. Please check if the backend is running."
      (match net with
       | .reject e => .error e
       | .resp r =>
           if r.ok then
             match r.result with
             | some result => .ok result
             | none => .error ⟨"SyntaxError", "Unexpected end of JSON input"⟩
           else
             .error ⟨"Error",
               httpErrorMessage "Edit failed" r.status r.statusText r.errorField⟩)

/-- ApiService.convertDocument: validate html and format, issue the fetch,
read the body as a blob on an ok status, and treat a zero-length blob as a
thrown error even on a success status. -/
def ApiService.convertDocument (html format : String) (filename : Option String)
    (net : NetOutcome ConvertHttpResp) : Except JsError Blob :=
  if html = "" ∨ format = "" then
    .error ⟨"Error", "HTML content and format are required"⟩
  else
    wrapTransport "Unable to connect to server for conversion. Please check if the backend is running."
      (match net with
       | .reject e => .error e
       | .resp r =>
           if r.ok then
             if r.blob.size = 0 then
               .error ⟨"Error", "Received empty file from server"⟩
             else .ok r.blob
           else
             .error ⟨"Error",
               httpErrorMessage "Conversion failed" r.status r.statusText r.errorField⟩)

/-- Observable effects of ApiService.downloadFile: whether the object URL
was created, the download name used for the link, the delay in ms after
which revocation of the URL is scheduled (none when it is never scheduled),
and the returned or thrown result. -/
structure DownloadRun where
  urlCreated : Bool
  downloadName : String
  revokeDelayMs : Option Nat
  result : Except JsError Unit

/-- ApiService.downloadFile, with clickFails modelling a throw from the DOM
append, click and remove sequence. The revocation of the object URL is only
scheduled, on a 100 ms delay, when that sequence completes; a throw is
caught and rethrown as the wrapped failed-to-download error. -/
def ApiService.downloadFile (blob : Blob) (filename : Option String)
    (clickFails : Bool) : DownloadRun :=
  if clickFails then
    { urlCreated := true, downloadName := jsOr filename "download",
      revokeDelayMs := none,
      result := .error ⟨"Error", "Failed to download file"⟩ }
  else
    { urlCreated := true, downloadName := jsOr filename "download",
      revokeDelayMs := some 100, result := .ok () }

/-- One instrumented run of a handler: whether a fetch was issued, the
observable state at the moment it was issued, whether a local save was
triggered, and the final state. -/
structure HandlerRun where
  networkCalled : Bool
  stateAtCall : Option AppState
  saveTriggered : Bool
  final : AppState
  deriving DecidableEq

/-- handleFileUpload: an absent file returns at once; otherwise set the
processing flag, clear the error, call the upload operation, and on a
success response with a document payload store the document, seed
htmlContent and language and move to the preview step; any failure sets the
error message; the processing flag is cleared on every path. -/
def handleFileUploadRun (s : AppState) (file : Option File)
    (net : NetOutcome UploadHttpResp) : HandlerRun :=
  match file with
  | none =>
      { networkCalled := false, stateAtCall := none, saveTriggered := false,
        final := s }
  | some f =>
      let s1 : AppState := { s with isProcessing := true, error := none }
      let afterTry : AppState :=
        match ApiService.uploadDocument (some f) net with
        | .ok response =>
            match response.document with
            | some doc =>
                if response.success then
                  { s1 with document := some doc,
                            htmlContent := jsOr doc.html "",
                            language := jsOr doc.language "en",
                            currentStep := "preview" }
                else
                  { s1 with error := some "Invalid response from server" }
            | none => { s1 with error := some "Invalid response from server" }
        | .error e =>
            { s1 with
              error := some (jsOrS e.message "Upload failed. Please try again.") }
      { networkCalled := true, stateAtCall := some s1, saveTriggered := false,
        final := { afterTry with isProcessing := false } }

/-- handleAIEdit: a blank instruction or empty working content sets the
error synchronously and returns; otherwise set the processing flag, clear
the error, call the edit operation, and on a success response with truthy
modified markup overwrite htmlContent, append an EditRecord and clear the
instruction input; any failure sets the error message; the processing flag
is cleared on every path. -/
def handleAIEditRun (s : AppState) (timestamp : String)
    (net : NetOutcome EditHttpResp) : HandlerRun :=
  if jsTrim s.editInstructions = "" then
    { networkCalled := false, stateAtCall := none, saveTriggered := false,
      final := { s with error := some "Please enter an instruction" } }
  else if s.htmlContent = "" then
    { networkCalled := false, stateAtCall := none, saveTriggered := false,
      final := { s with error := some "No document content to edit" } }
  else
    let s1 : AppState := { s with isProcessing := true, error := none }
    let afterTry : AppState :=
      match ApiService.editDocument s.editInstructions s.htmlContent s.language
              (s.document.bind fun d => d.id) net with
      | .ok response =>
          if response.success && truthyStr response.modifiedHTML then
            { s1 with htmlContent := response.modifiedHTML.getD "",
                      editHistory := s1.editHistory ++
                        [{ instruction := s.editInstructions,
                           timestamp := timestamp,
                           explanation :=
                             jsOr response.explanation "Changes applied successfully" }],
                      editInstructions := "" }
          else
            { s1 with error := some (jsOr response.error "Edit failed") }
      | .error e =>
          { s1 with
            error := some (jsOrS e.message "Failed to process edit instruction. Please try again.") }
    { networkCalled := true, stateAtCall := some s1, saveTriggered := false,
      final := { afterTry with isProcessing := false } }

/-- The derived export filename: the part of the original upload name
before the first dot, or the literal document, followed by the format. -/
def exportFilename (originalName : Option String) (format : String) : String :=
  (match originalName with
   | none => "document"
   | some n => jsOrS ((n.splitOn ".").headD "") "document") ++ "." ++ format

/-- downloadAsFormat: empty working content sets the error synchronously
and returns; otherwise set the processing flag, clear the error, call the
convert operation with the derived filename, and on a nonempty blob trigger
the local save; a conversion failure, an empty blob or a save failure sets
the error message; the processing flag is cleared on every path. The fetch
is only issued when the convert validation passes. -/
def downloadAsFormatRun (s : AppState) (format : String)
    (net : NetOutcome ConvertHttpResp) (clickFails : Bool) : HandlerRun :=
  if s.htmlContent = "" then
    { networkCalled := false, stateAtCall := none, saveTriggered := false,
      final := { s with error := some "No document content to download" } }
  else
    let s1 : AppState := { s with isProcessing := true, error := none }
    let filename : String :=
      exportFilename (s.document.bind fun d => d.originalName) format
    let netCalled : Bool := if format = "" then false else true
    let callState : Option AppState := if format = "" then none else some s1
    let outcome : Bool × AppState :=
      match ApiService.convertDocument s.htmlContent format (some filename) net with
      | .ok blob =>
          if blob.size > 0 then
            match (ApiService.downloadFile blob (some filename) clickFails).result with
            | .ok _ => (true, s1)
            | .error e =>
                (true, { s1 with
                  error := some (jsOrS e.message ("Failed to download " ++ format.toUpper ++ " file. Please try again.")) })
          else
            (false, { s1 with error := some "Failed to generate download file" })
      | .error e =>
          (false, { s1 with
            error := some (jsOrS e.message ("Failed to download " ++ format.toUpper ++ " file. Please try again.")) })
    { networkCalled := netCalled, stateAtCall := callState,
      saveTriggered := outcome.1,
      final := { outcome.2 with isProcessing := false } }

/-- resetDocument: clear every document-scoped field and return to the
upload step. -/
def resetDocument (s : AppState) : AppState :=
  { s with document := none, htmlContent := "", editHistory := [],
           error := none, language := "en", currentStep := "upload",
           editInstructions := "" }

/-- An edit network outcome counts as successful exactly when the fetch
resolves with an ok status, the body parses, the success flag is set and
the modified markup is truthy. -/
def editOutcomeOk (net : NetOutcome EditHttpResp) : Bool :=
  match net with
  | .reject _ => false
  | .resp r =>
      r.ok &&
        (match r.result with
         | some resp => resp.success && truthyStr resp.modifiedHTML
         | none => false)

/-- Sample document used by the witnesses. -/
def sampleDoc : Document :=
  { id := some "d1", originalName := some "a.txt", type := some "text",
    language := some "en", html := some "<p>hi</p>", metadata := none }

/-- Sample file handle used by the witnesses. -/
def sampleFile : File := { name := "a.txt" }

/-- Sample successful upload body used by the witnesses. -/
def sampleUploadOkResp : UploadResponse :=
  { success := true, document := some sampleDoc }

/-- Sample successful upload response used by the witnesses. -/
def sampleUploadOkHttp : UploadHttpResp :=
  { ok := true, status := 200, statusText := "OK", errorField := none,
    result := some sampleUploadOkResp }

/-- Sample failing upload response used by the witnesses. -/
def sampleUploadBadHttp : UploadHttpResp :=
  { ok := false, status := 500, statusText := "Internal Server Error",
    errorField := some (some "parse failure"), result := none }

/-- Sample transport failure used by the witnesses. -/
def sampleFetchError : JsError := ⟨"TypeError", "Failed to fetch"⟩

/-- Sample successful edit body used by the witnesses. -/
def sampleEditResp : EditResponse :=
  { success := true, modifiedHTML := some "<h1><b>Hi</b></h1>",
    explanation := some "Bolded title", error := none }

/-- Sample successful edit response used by the witnesses. -/
def sampleEditOkHttp : EditHttpResp :=
  { ok := true, status := 200, statusText := "OK", errorField := none,
    result := some sampleEditResp }

/-- Sample state at the edit step used by the witnesses. -/
def sampleEditState : AppState :=
  { initialState with
    editInstructions := "make title bold",
    htmlContent := "<h1>Hi</h1>", currentStep := "edit" }

/-- Sample convert response with an empty payload used by the witnesses. -/
def sampleConvertEmptyHttp : ConvertHttpResp :=
  { ok := true, status := 200, statusText := "OK", errorField := none,
    blob := ⟨0⟩ }

/-- Sample state with working content used by the witnesses. -/
def sampleExportState : AppState :=
  { initialState with
    htmlContent := "<p>hi</p>", currentStep := "preview" }

theorem jsOrS_ne_empty (x d : String) (hd : d ≠ "") : jsOrS x d ≠ "" := by
  unfold jsOrS
  by_cases h : x = ""
  · rw [if_pos h]; exact hd
  · rw [if_neg h]; exact h

theorem jsOrS_of_ne (x d : String) (h : x ≠ "") : jsOrS x d = x := by
  unfold jsOrS; rw [if_neg h]

theorem jsOr_empty_default (x : Option String) : jsOr x "" = x.getD "" := by
  cases x with
  | none => rfl
  | some v =>
      by_cases h : v = ""
      · simp [jsOr, h]
      · simp [jsOr, h]

theorem wrapTransport_ok {α : Type} (msg : String) (v : α) :
    wrapTransport msg (Except.ok v) = Except.ok v := rfl

theorem wrapTransport_not_fetch {α : Type} (msg : String) (e : JsError)
    (h : e.name ≠ "TypeError") :
    wrapTransport msg (Except.error e) = (Except.error e : Except JsError α) := by
  simp only [wrapTransport]
  rw [if_neg]
  rintro ⟨h1, -⟩
  exact h h1

theorem wrapTransport_error_plain {α : Type} (msg m : String) :
    wrapTransport msg (Except.error ⟨"Error", m⟩) =
      (Except.error ⟨"Error", m⟩ : Except JsError α) :=
  wrapTransport_not_fetch msg ⟨"Error", m⟩
    (fun h => absurd (show ("Error" : String) = "TypeError" from h) (by decide))

theorem wrapTransport_error_syn {α : Type} (msg m : String) :
    wrapTransport msg (Except.error ⟨"SyntaxError", m⟩) =
      (Except.error ⟨"SyntaxError", m⟩ : Except JsError α) :=
  wrapTransport_not_fetch msg ⟨"SyntaxError", m⟩
    (fun h => absurd (show ("SyntaxError" : String) = "TypeError" from h) (by decide))

theorem wrapTransport_fetch {α : Type} (msg : String) (e : JsError)
    (h1 : e.name = "TypeError") (h2 : containsSubstring e.message "fetch" = true) :
    wrapTransport msg (Except.error e) =
      (Except.error ⟨"Error", msg⟩ : Except JsError α) := by
  simp only [wrapTransport]
  rw [if_pos ⟨h1, h2⟩]

/-- Claim C1: for every upload whose response has the success flag and a
document payload, afterwards the workflow state has step preview, the
document stored and non-absent, htmlContent seeded from the markup of the
document (empty string when the markup is absent), and language seeded from
the language field of the document with default en when it is absent. -/
theorem upload_success_updates_state (s : AppState) (f : File)
    (r : UploadHttpResp) (resp : UploadResponse) (doc : Document)
    (hok : r.ok = true) (hres : r.result = some resp)
    (hsucc : resp.success = true) (hdoc : resp.document = some doc) :
    (handleFileUploadRun s (some f) (NetOutcome.resp r)).final.currentStep = "preview" ∧
    (handleFileUploadRun s (some f) (NetOutcome.resp r)).final.document = some doc ∧
    (handleFileUploadRun s (some f) (NetOutcome.resp r)).final.document ≠ none ∧
    (handleFileUploadRun s (some f) (NetOutcome.resp r)).final.htmlContent = doc.html.getD "" ∧
    (handleFileUploadRun s (some f) (NetOutcome.resp r)).final.language = jsOr doc.language "en" := by
  have happ : ApiService.uploadDocument (some f) (NetOutcome.resp r) = Except.ok resp := by
    simp only [ApiService.uploadDocument, hok, if_true, hres]
    exact wrapTransport_ok _ _
  refine ⟨?_, ?_, ?_, ?_, ?_⟩ <;>
    simp [handleFileUploadRun, happ, hdoc, hsucc, jsOr_empty_default]

/-- Witness for upload_success_updates_state at a concrete upload. -/
theorem upload_success_updates_state_witness :
    (handleFileUploadRun initialState (some sampleFile) (NetOutcome.resp sampleUploadOkHttp)).final.currentStep = "preview" ∧
    (handleFileUploadRun initialState (some sampleFile) (NetOutcome.resp sampleUploadOkHttp)).final.document = some sampleDoc ∧
    (handleFileUploadRun initialState (some sampleFile) (NetOutcome.resp sampleUploadOkHttp)).final.document ≠ none ∧
    (handleFileUploadRun initialState (some sampleFile) (NetOutcome.resp sampleUploadOkHttp)).final.htmlContent = sampleDoc.html.getD "" ∧
    (handleFileUploadRun initialState (some sampleFile) (NetOutcome.resp sampleUploadOkHttp)).final.language = jsOr sampleDoc.language "en" :=
  upload_success_updates_state initialState sampleFile sampleUploadOkHttp
    sampleUploadOkResp sampleDoc rfl rfl rfl rfl

/-- Claim C2: for every failing upload, on a non-2xx response the workflow
keeps step upload, the document stays absent and the error is a non-empty
message; on a transport failure the error is exactly the distinguished
connectivity message containing check if the backend is running. -/
theorem upload_failure_keeps_upload (s : AppState) (f : File)
    (r : UploadHttpResp) (e : JsError)
    (hstep : s.currentStep = "upload") (hdoc : s.document = none)
    (hr : r.ok = false) (hname : e.name = "TypeError")
    (hmsg : containsSubstring e.message "fetch" = true) :
    ((handleFileUploadRun s (some f) (NetOutcome.resp r)).final.currentStep = "upload" ∧
     (handleFileUploadRun s (some f) (NetOutcome.resp r)).final.document = none ∧
     (handleFileUploadRun s (some f) (NetOutcome.resp r)).final.error.isSome = true ∧
     (handleFileUploadRun s (some f) (NetOutcome.resp r)).final.error.getD "" ≠ "") ∧
    ((handleFileUploadRun s (some f) (NetOutcome.reject e)).final.currentStep = "upload" ∧
     (handleFileUploadRun s (some f) (NetOutcome.reject e)).final.document = none ∧
     (handleFileUploadRun s (some f) (NetOutcome.reject e)).final.error =
       some "Unable to connect to server. Please check if the backend is running." ∧
     containsSubstring "Unable to connect to server. Please check if the backend is running."
       "check if the backend is running" = true) := by
  have happ1 : ApiService.uploadDocument (some f) (NetOutcome.resp r) =
      Except.error ⟨"Error",
        httpErrorMessage "Upload failed" r.status r.statusText r.errorField⟩ := by
    simp only [ApiService.uploadDocument, hr, if_false]
    exact wrapTransport_error_plain _ _
  have happ2 : ApiService.uploadDocument (some f) (NetOutcome.reject e) =
      Except.error ⟨"Error",
        "Unable to connect to server. Please check if the backend is running."⟩ := by
    simp only [ApiService.uploadDocument]
    exact wrapTransport_fetch _ _ hname hmsg
  constructor
  · refine ⟨?_, ?_, ?_, ?_⟩ <;> simp [handleFileUploadRun, happ1, hstep, hdoc]
    exact jsOrS_ne_empty _ _ (by decide)
  · refine ⟨?_, ?_, ?_, by decide⟩ <;>
      simp [handleFileUploadRun, happ2, hstep, hdoc, jsOrS]

/-- Witness for upload_failure_keeps_upload at a concrete non-2xx response
and a concrete transport failure. -/
theorem upload_failure_keeps_upload_witness :
    ((handleFileUploadRun initialState (some sampleFile) (NetOutcome.resp sampleUploadBadHttp)).final.currentStep = "upload" ∧
     (handleFileUploadRun initialState (some sampleFile) (NetOutcome.resp sampleUploadBadHttp)).final.document = none ∧
     (handleFileUploadRun initialState (some sampleFile) (NetOutcome.resp sampleUploadBadHttp)).final.error.isSome = true ∧
     (handleFileUploadRun initialState (some sampleFile) (NetOutcome.resp sampleUploadBadHttp)).final.error.getD "" ≠ "") ∧
    ((handleFileUploadRun initialState (some sampleFile) (NetOutcome.reject sampleFetchError)).final.currentStep = "upload" ∧
     (handleFileUploadRun initialState (some sampleFile) (NetOutcome.reject sampleFetchError)).final.document = none ∧
     (handleFileUploadRun initialState (some sampleFile) (NetOutcome.reject sampleFetchError)).final.error =
       some "Unable to connect to server. Please check if the backend is running." ∧
     containsSubstring "Unable to connect to server. Please check if the backend is running."
       "check if the backend is running" = true) :=
  upload_failure_keeps_upload initialState sampleFile sampleUploadBadHttp
    sampleFetchError rfl rfl rfl rfl (by decide)

/-- Claim C3: reset from any state yields the initial values of every
document-scoped observable (step upload, document absent, empty
htmlContent, empty editHistory, error absent, language en, empty
instruction input), and reset is idempotent. -/
theorem reset_yields_initial_and_idempotent (s : AppState) :
    (resetDocument s).currentStep = initialState.currentStep ∧
    (resetDocument s).document = initialState.document ∧
    (resetDocument s).htmlContent = initialState.htmlContent ∧
    (resetDocument s).editHistory = initialState.editHistory ∧
    (resetDocument s).error = initialState.error ∧
    (resetDocument s).language = initialState.language ∧
    (resetDocument s).editInstructions = initialState.editInstructions ∧
    resetDocument (resetDocument s) = resetDocument s :=
  ⟨rfl, rfl, rfl, rfl, rfl, rfl, rfl, rfl⟩

/-- Claim C10: invoking the upload entry point with an absent file is a
silent no-op: no network call, no state at call, no save, and the final
state is the input state unchanged; the no-file validation of the
ApiService, which would throw, is never reached. -/
theorem upload_absent_file_noop (s : AppState) (net : NetOutcome UploadHttpResp) :
    handleFileUploadRun s none net =
      { networkCalled := false, stateAtCall := none, saveTriggered := false,
        final := s } ∧
    ApiService.uploadDocument none net =
      Except.error ⟨"Error", "No file provided"⟩ :=
  ⟨rfl, rfl⟩

/-- Claim C4: for every edit submission whose response has the success flag
and non-empty modified markup, editHistory grows by exactly one record
whose instruction is the submitted text verbatim and whose explanation is
the backend explanation with fallback literal Changes applied successfully,
htmlContent equals the returned markup exactly, and the pending instruction
input is cleared. -/
theorem edit_success_appends_history (s : AppState) (t : String)
    (r : EditHttpResp) (resp : EditResponse) (m : String)
    (hblank : jsTrim s.editInstructions ≠ "") (hhtml : s.htmlContent ≠ "")
    (hok : r.ok = true) (hres : r.result = some resp)
    (hsucc : resp.success = true) (hmod : resp.modifiedHTML = some m)
    (hm : m ≠ "") :
    (handleAIEditRun s t (NetOutcome.resp r)).final.editHistory =
      s.editHistory ++
        [{ instruction := s.editInstructions, timestamp := t,
           explanation := jsOr resp.explanation "Changes applied successfully" }] ∧
    (handleAIEditRun s t (NetOutcome.resp r)).final.editHistory.length =
      s.editHistory.length + 1 ∧
    (handleAIEditRun s t (NetOutcome.resp r)).final.htmlContent = m ∧
    (handleAIEditRun s t (NetOutcome.resp r)).final.editInstructions = "" := by
  have hne : s.editInstructions ≠ "" := by
    intro h
    exact hblank (by rw [h]; rfl)
  have happ : ApiService.editDocument s.editInstructions s.htmlContent s.language
      (s.document.bind fun d => d.id) (NetOutcome.resp r) = Except.ok resp := by
    simp only [ApiService.editDocument]
    rw [if_neg (fun h => h.elim hne hhtml)]
    simp only [hok, if_true, hres]
    exact wrapTransport_ok _ _
  have htm : truthyStr (some m) = true := by
    simp only [truthyStr]
    rw [if_neg hm]
  refine ⟨?_, ?_, ?_, ?_⟩ <;>
    simp [handleAIEditRun, hblank, hhtml, happ, hsucc, hmod, htm]

/-- Witness for edit_success_appends_history at a concrete edit. -/
theorem edit_success_appends_history_witness :
    (handleAIEditRun sampleEditState "ts" (NetOutcome.resp sampleEditOkHttp)).final.editHistory =
      sampleEditState.editHistory ++
        [{ instruction := sampleEditState.editInstructions, timestamp := "ts",
           explanation := jsOr sampleEditResp.explanation "Changes applied successfully" }] ∧
    (handleAIEditRun sampleEditState "ts" (NetOutcome.resp sampleEditOkHttp)).final.editHistory.length =
      sampleEditState.editHistory.length + 1 ∧
    (handleAIEditRun sampleEditState "ts" (NetOutcome.resp sampleEditOkHttp)).final.htmlContent = "<h1><b>Hi</b></h1>" ∧
    (handleAIEditRun sampleEditState "ts" (NetOutcome.resp sampleEditOkHttp)).final.editInstructions = "" :=
  edit_success_appends_history sampleEditState "ts" sampleEditOkHttp
    sampleEditResp "<h1><b>Hi</b></h1>" (by decide) (by decide) rfl rfl rfl rfl
    (by decide)

/-- Claim C5: a blank instruction or empty working content blocks the edit
submission, and empty working content blocks the export: no network call
occurs, the error is set synchronously, and htmlContent and editHistory are
unchanged. -/
theorem validation_blocks_io (s : AppState) (t fmt : String)
    (netE : NetOutcome EditHttpResp) (netC : NetOutcome ConvertHttpResp)
    (cf : Bool) :
    (jsTrim s.editInstructions = "" →
      (handleAIEditRun s t netE).networkCalled = false ∧
      (handleAIEditRun s t netE).final.error = some "Please enter an instruction" ∧
      (handleAIEditRun s t netE).final.htmlContent = s.htmlContent ∧
      (handleAIEditRun s t netE).final.editHistory = s.editHistory) ∧
    (s.htmlContent = "" →
      (handleAIEditRun s t netE).networkCalled = false ∧
      (handleAIEditRun s t netE).final.error.isSome = true ∧
      (handleAIEditRun s t netE).final.error.getD "" ≠ "" ∧
      (handleAIEditRun s t netE).final.htmlContent = s.htmlContent ∧
      (handleAIEditRun s t netE).final.editHistory = s.editHistory) ∧
    (s.htmlContent = "" →
      (downloadAsFormatRun s fmt netC cf).networkCalled = false ∧
      (downloadAsFormatRun s fmt netC cf).saveTriggered = false ∧
      (downloadAsFormatRun s fmt netC cf).final.error =
        some "No document content to download" ∧
      (downloadAsFormatRun s fmt netC cf).final.htmlContent = s.htmlContent ∧
      (downloadAsFormatRun s fmt netC cf).final.editHistory = s.editHistory) := by
  refine ⟨fun hb => ?_, fun hh => ?_, fun hh => ?_⟩
  · refine ⟨?_, ?_, ?_, ?_⟩ <;> simp [handleAIEditRun, hb]
  · by_cases hb : jsTrim s.editInstructions = ""
    · refine ⟨?_, ?_, ?_, ?_, ?_⟩ <;> simp [handleAIEditRun, hb]
    · refine ⟨?_, ?_, ?_, ?_, ?_⟩ <;> simp [handleAIEditRun, hb, hh]
  · refine ⟨?_, ?_, ?_, ?_, ?_⟩ <;> simp [downloadAsFormatRun, hh]

/-- Witness for validation_blocks_io at the initial state, whose
instruction input and working content are both empty. -/
theorem validation_blocks_io_witness :
    (handleAIEditRun initialState "ts" (NetOutcome.reject sampleFetchError)).networkCalled = false ∧
    (downloadAsFormatRun initialState "pdf" (NetOutcome.reject sampleFetchError) false).networkCalled = false :=
  ⟨((validation_blocks_io initialState "ts" "pdf" (NetOutcome.reject sampleFetchError)
      (NetOutcome.reject sampleFetchError) false).1 rfl).1,
   ((validation_blocks_io initialState "ts" "pdf" (NetOutcome.reject sampleFetchError)
      (NetOutcome.reject sampleFetchError) false).2.2 rfl).1⟩

/-- Claim C6: a conversion response with a success status but a zero-length
binary payload makes the convert operation fail: the workflow sets the
error to the empty-file message, triggers no local save, and clears the
processing flag. -/
theorem empty_payload_fails_no_save (s : AppState) (fmt : String)
    (r : ConvertHttpResp) (cf : Bool)
    (hhtml : s.htmlContent ≠ "") (hfmt : fmt ≠ "")
    (hok : r.ok = true) (hsize : r.blob.size = 0) :
    (downloadAsFormatRun s fmt (NetOutcome.resp r) cf).saveTriggered = false ∧
    (downloadAsFormatRun s fmt (NetOutcome.resp r) cf).final.error =
      some "Received empty file from server" ∧
    (downloadAsFormatRun s fmt (NetOutcome.resp r) cf).final.isProcessing = false := by
  have happ : ApiService.convertDocument s.htmlContent fmt
      (some (exportFilename (s.document.bind fun d => d.originalName) fmt))
      (NetOutcome.resp r) =
      Except.error ⟨"Error", "Received empty file from server"⟩ := by
    simp only [ApiService.convertDocument]
    rw [if_neg (fun h => h.elim hhtml hfmt)]
    simp only [hok, if_true, hsize, if_pos rfl]
    exact wrapTransport_error_plain _ _
  refine ⟨?_, ?_, ?_⟩ <;> simp [downloadAsFormatRun, hhtml, happ]
  exact jsOrS_of_ne _ _ (by decide)

/-- Witness for empty_payload_fails_no_save at a concrete conversion. -/
theorem empty_payload_fails_no_save_witness :
    (downloadAsFormatRun sampleExportState "pdf" (NetOutcome.resp sampleConvertEmptyHttp) false).saveTriggered = false ∧
    (downloadAsFormatRun sampleExportState "pdf" (NetOutcome.resp sampleConvertEmptyHttp) false).final.error =
      some "Received empty file from server" ∧
    (downloadAsFormatRun sampleExportState "pdf" (NetOutcome.resp sampleConvertEmptyHttp) false).final.isProcessing = false :=
  empty_payload_fails_no_save sampleExportState "pdf" sampleConvertEmptyHttp
    false (by decide) (by decide) rfl rfl

/-- Claim C7: in each of the three entry points that perform a network
call, whenever a request is issued the observable state at that moment has
the processing flag set and the prior error cleared, and the processing
flag is never left set in the final state after a call; the recorded state
at call exists exactly when a call was made. -/
theorem processing_flag_discipline :
    (∀ (s : AppState) (file : Option File) (net : NetOutcome UploadHttpResp),
      (handleFileUploadRun s file net).stateAtCall.isSome =
        (handleFileUploadRun s file net).networkCalled ∧
      ((handleFileUploadRun s file net).stateAtCall.all
        fun st => st.isProcessing && st.error.isNone) = true ∧
      (!(handleFileUploadRun s file net).networkCalled ||
        !(handleFileUploadRun s file net).final.isProcessing) = true) ∧
    (∀ (s : AppState) (t : String) (net : NetOutcome EditHttpResp),
      (handleAIEditRun s t net).stateAtCall.isSome =
        (handleAIEditRun s t net).networkCalled ∧
      ((handleAIEditRun s t net).stateAtCall.all
        fun st => st.isProcessing && st.error.isNone) = true ∧
      (!(handleAIEditRun s t net).networkCalled ||
        !(handleAIEditRun s t net).final.isProcessing) = true) ∧
    (∀ (s : AppState) (fmt : String) (net : NetOutcome ConvertHttpResp) (cf : Bool),
      (downloadAsFormatRun s fmt net cf).stateAtCall.isSome =
        (downloadAsFormatRun s fmt net cf).networkCalled ∧
      ((downloadAsFormatRun s fmt net cf).stateAtCall.all
        fun st => st.isProcessing && st.error.isNone) = true ∧
      (!(downloadAsFormatRun s fmt net cf).networkCalled ||
        !(downloadAsFormatRun s fmt net cf).final.isProcessing) = true) := by
  refine ⟨fun s file net => ?_, fun s t net => ?_, fun s fmt net cf => ?_⟩
  · cases file with
    | none => exact ⟨rfl, rfl, rfl⟩
    | some f => exact ⟨rfl, rfl, rfl⟩
  · by_cases h1 : jsTrim s.editInstructions = ""
    · refine ⟨?_, ?_, ?_⟩ <;> simp [handleAIEditRun, h1]
    · by_cases h2 : s.htmlContent = ""
      · refine ⟨?_, ?_, ?_⟩ <;> simp [handleAIEditRun, h1, h2]
      · refine ⟨?_, ?_, ?_⟩ <;> simp [handleAIEditRun, h1, h2]
  · by_cases h : s.htmlContent = ""
    · refine ⟨?_, ?_, ?_⟩ <;> simp [downloadAsFormatRun, h]
    · by_cases hf : fmt = ""
      · refine ⟨?_, ?_, ?_⟩ <;> simp [downloadAsFormatRun, h, hf]
      · refine ⟨?_, ?_, ?_⟩ <;> simp [downloadAsFormatRun, h, hf]

/-- Claim C8 counterexample: when save initiation fails, downloadFile does
raise the wrapped failed-to-download error, but it never schedules the
revocation of the temporary object URL, refuting the release on every exit
path. -/
theorem download_url_release_counterexample :
    (ApiService.downloadFile ⟨3⟩ (some "a.pdf") true).result =
      Except.error ⟨"Error", "Failed to download file"⟩ ∧
    (ApiService.downloadFile ⟨3⟩ (some "a.pdf") true).revokeDelayMs = none :=
  ⟨rfl, rfl⟩

/-- Claim C8 amended: the local-save operation schedules the release of its
temporary object URL on a short 100 ms delay when save initiation
completes; when save initiation itself fails, a wrapped failed-to-download
error is raised and the object URL release is not scheduled. -/
theorem download_url_release_amended (blob : Blob) (fn : Option String) :
    ApiService.downloadFile blob fn false =
      { urlCreated := true, downloadName := jsOr fn "download",
        revokeDelayMs := some 100, result := Except.ok () } ∧
    ApiService.downloadFile blob fn true =
      { urlCreated := true, downloadName := jsOr fn "download",
        revokeDelayMs := none,
        result := Except.error ⟨"Error", "Failed to download file"⟩ } :=
  ⟨rfl, rfl⟩

theorem handleAIEditRun_frame_of_no_success (s : AppState) (t : String)
    (netE : NetOutcome EditHttpResp)
    (h : ∀ resp, ApiService.editDocument s.editInstructions s.htmlContent
          s.language (s.document.bind fun d => d.id) netE = Except.ok resp →
          (resp.success && truthyStr resp.modifiedHTML) = false) :
    (handleAIEditRun s t netE).final.htmlContent = s.htmlContent ∧
    (handleAIEditRun s t netE).final.editHistory = s.editHistory ∧
    (handleAIEditRun s t netE).final.document = s.document ∧
    (handleAIEditRun s t netE).final.currentStep = s.currentStep ∧
    (handleAIEditRun s t netE).final.language = s.language ∧
    (handleAIEditRun s t netE).final.editInstructions = s.editInstructions := by
  by_cases h1 : jsTrim s.editInstructions = ""
  · refine ⟨?_, ?_, ?_, ?_, ?_, ?_⟩ <;> simp [handleAIEditRun, h1]
  · by_cases h2 : s.htmlContent = ""
    · refine ⟨?_, ?_, ?_, ?_, ?_, ?_⟩ <;> simp [handleAIEditRun, h1, h2]
    · cases hE : ApiService.editDocument s.editInstructions s.htmlContent
          s.language (s.document.bind fun d => d.id) netE with
      | ok resp =>
          have hc := h resp hE
          refine ⟨?_, ?_, ?_, ?_, ?_, ?_⟩ <;>
            simp [handleAIEditRun, h1, h2, hE, hc]
      | error e =>
          refine ⟨?_, ?_, ?_, ?_, ?_, ?_⟩ <;>
            simp [handleAIEditRun, h1, h2, hE]

/-- Claim C9: no failure rolls back already-applied state: every export run
leaves htmlContent, editHistory, document, step, language and the pending
instruction unchanged, and every edit run whose network outcome is not a
success leaves them unchanged as well, so the only state changes on failure
are the error message and the processing flag. -/
theorem failures_preserve_applied_state :
    (∀ (s : AppState) (fmt : String) (netC : NetOutcome ConvertHttpResp) (cf : Bool),
      (downloadAsFormatRun s fmt netC cf).final.htmlContent = s.htmlContent ∧
      (downloadAsFormatRun s fmt netC cf).final.editHistory = s.editHistory ∧
      (downloadAsFormatRun s fmt netC cf).final.document = s.document ∧
      (downloadAsFormatRun s fmt netC cf).final.currentStep = s.currentStep ∧
      (downloadAsFormatRun s fmt netC cf).final.language = s.language ∧
      (downloadAsFormatRun s fmt netC cf).final.editInstructions = s.editInstructions) ∧
    (∀ (s : AppState) (t : String) (netE : NetOutcome EditHttpResp),
      editOutcomeOk netE = false →
      (handleAIEditRun s t netE).final.htmlContent = s.htmlContent ∧
      (handleAIEditRun s t netE).final.editHistory = s.editHistory ∧
      (handleAIEditRun s t netE).final.document = s.document ∧
      (handleAIEditRun s t netE).final.currentStep = s.currentStep ∧
      (handleAIEditRun s t netE).final.language = s.language ∧
      (handleAIEditRun s t netE).final.editInstructions = s.editInstructions) := by
  constructor
  · intro s fmt netC cf
    by_cases h : s.htmlContent = ""
    · refine ⟨?_, ?_, ?_, ?_, ?_, ?_⟩ <;> simp [downloadAsFormatRun, h]
    · cases hC : ApiService.convertDocument s.htmlContent fmt
          (some (exportFilename (s.document.bind fun d => d.originalName) fmt)) netC with
      | ok blob =>
          by_cases hb : blob.size > 0
          · cases cf with
            | true =>
                refine ⟨?_, ?_, ?_, ?_, ?_, ?_⟩ <;>
                  simp [downloadAsFormatRun, h, hC, hb, ApiService.downloadFile]
            | false =>
                refine ⟨?_, ?_, ?_, ?_, ?_, ?_⟩ <;>
                  simp [downloadAsFormatRun, h, hC, hb, ApiService.downloadFile]
          · refine ⟨?_, ?_, ?_, ?_, ?_, ?_⟩ <;>
              simp [downloadAsFormatRun, h, hC, hb]
      | error e =>
          refine ⟨?_, ?_, ?_, ?_, ?_, ?_⟩ <;> simp [downloadAsFormatRun, h, hC]
  · intro s t netE hfail
    apply handleAIEditRun_frame_of_no_success
    intro resp hEq
    cases netE with
    | reject e =>
        exfalso
        simp only [ApiService.editDocument] at hEq
        split at hEq
        · exact Except.noConfusion hEq
        · simp only [wrapTransport] at hEq
          split at hEq <;> exact Except.noConfusion hEq
    | resp r =>
        simp only [editOutcomeOk] at hfail
        simp only [ApiService.editDocument] at hEq
        split at hEq
        · exact Except.noConfusion hEq
        · by_cases hok : r.ok = true
          · cases hres : r.result with
            | none =>
                exfalso
                rw [hok] at hEq
                rw [hres] at hEq
                simp only [if_true] at hEq
                rw [wrapTransport_error_syn] at hEq
                exact Except.noConfusion hEq
            | some resp2 =>
                rw [hok] at hEq
                rw [hres] at hEq
                simp only [if_true] at hEq
                rw [wrapTransport_ok] at hEq
                have hr2 : resp2 = resp := Except.ok.inj hEq
                rw [hok] at hfail
                rw [hres] at hfail
                simp only [Bool.true_and] at hfail
                rw [hr2] at hfail
                exact hfail
          · exfalso
            have hok' : r.ok = false := by
              revert hok; cases r.ok <;> simp
            rw [hok'] at hEq
            simp only [Bool.false_eq_true, if_false] at hEq
            rw [wrapTransport_error_plain] at hEq
            exact Except.noConfusion hEq

/-- Witness for failures_preserve_applied_state at a concrete failing edit
outcome. -/
theorem failures_preserve_applied_state_witness :
    (handleAIEditRun sampleEditState "ts" (NetOutcome.reject sampleFetchError)).final.htmlContent = sampleEditState.htmlContent ∧
    (handleAIEditRun sampleEditState "ts" (NetOutcome.reject sampleFetchError)).final.editHistory = sampleEditState.editHistory :=
  ⟨(failures_preserve_applied_state.2 sampleEditState "ts"
      (NetOutcome.reject sampleFetchError) rfl).1,
   (failures_preserve_applied_state.2 sampleEditState "ts"
      (NetOutcome.reject sampleFetchError) rfl).2.1⟩
